import Mathlib

/-!
Shallow embedding of `custom_components/holiday_status/sensor.py`
(the `HolidayStatusSensor` entity of the hacs-chinese-holidays repository).

The sensor's update cycle `_async_update_data` is modelled as a pure, total
function from the sensor's previous fields, the evaluated date and the
outcome of the single HTTP GET to the resulting sensor fields, together
with counters for the observable side effects (HTTP GET requests issued,
publish-to-sink calls, i.e. `async_write_ha_state`) and a flag recording
whether an exception propagates out of the call.  Python dicts are
modelled as association lists looked up with `List.lookup`; `dict.get`
returning a possibly-missing value is modelled with `Option`.

The exception path is modelled after Python's actual try-statement
semantics, not after the text of the handlers: the first except clause,
`except async_timeout.TimeoutError:`, names an attribute that the
`async_timeout` module does not have, so as soon as any exception is
raised inside the `try` (timeout, connection error, `raise_for_status` on
a non-2xx response, JSON decoding error), evaluating that clause raises
`AttributeError`, the handler search is aborted — the second
`except Exception as e:` clause is never consulted — and the
`AttributeError` propagates out of `_async_update_data` with `_state` and
`_attributes` unchanged.  The `finally` block still runs and publishes
once.  Both handler bodies at sensor.py:150-157 are therefore dead code;
the `raised` field of the outcome records the propagating
`AttributeError`.
-/

namespace HolidayStatus

/-- One day's entry of the API payload (`today_info` in the source):
`today_info.get("type")` and `today_info.get("typename")` may each be
absent, hence the `Option` fields. -/
structure DayInfo where
  type : Option Int
  typename : Option String
deriving DecidableEq, Repr

/-- The mapping under one `YYYYMM` key: `MMDD` day keys to day entries. -/
abbrev MonthData := List (String × DayInfo)

/-- The parsed JSON body: `YYYYMM` keys to month mappings. -/
abbrev ApiData := List (String × MonthData)

/-- Values stored in the sensor's `_attributes` dict. -/
inductive AttrVal where
  | str (s : String)
  | int (n : Int)
  | optStr (s : Option String)
  | info (d : DayInfo)
  | month (m : Option MonthData)
deriving DecidableEq, Repr

/-- The sensor's `_attributes` dict. -/
abbrev Attributes := List (String × AttrVal)

/-- The mutable fields of `HolidayStatusSensor`: `_state` (initially
`None`, hence `Option`) and `_attributes`. -/
structure SensorState where
  state : Option String
  attributes : Attributes
deriving DecidableEq, Repr

/-- `STATUS_MAP = {0: "工作日", 1: "休息日", 2: "节假日"}` from sensor.py. -/
def STATUS_MAP : List (Int × String) :=
  [(0, "工作日"), (1, "休息日"), (2, "节假日")]

/-- The values the code reads off `today = datetime.now()`:
`strftime("%Y%m")`, `strftime("%m%d")`, `strftime("%Y-%m-%d")`, and the
`datetime.now().isoformat()` timestamp taken while building the success
attributes.  `weekday` is Python's `datetime.weekday()` (0 = Monday …
6 = Sunday); the sensor code never reads it, it is carried only so that
claims about the evaluated date's weekday can be stated. -/
structure Today where
  ym : String
  md : String
  dateStr : String
  isoNow : String
  weekday : Nat
deriving DecidableEq, Repr

/-- Outcome of the one `session.get(url)` performed inside the `try`
block: a 2xx response with a parsed JSON body, a timeout
(`asyncio.TimeoutError` from `async_timeout.timeout(10)`), or any other
exception (`raise_for_status` on a non-2xx response, connection error,
JSON decoding error), carrying that exception's message.  In the two
failure alternatives the raised exception becomes the context of the
`AttributeError` produced by the broken first except clause; its message
is not otherwise consumed, since both handler bodies are dead. -/
inductive FetchOutcome where
  | ok (data : ApiData)
  | timeout
  | httpError (msg : String)
deriving DecidableEq, Repr

/-- Result of one `_async_update_data` call: the sensor fields after the
call, whether an exception (the `AttributeError` raised while evaluating
the nonexistent `async_timeout.TimeoutError` in the first except clause)
propagates out of the call, and counts of the observable side effects of
the call (HTTP GET requests issued, `async_write_ha_state` publish
calls, the latter run in the `finally` block on every path). -/
structure RefreshOutcome where
  sensor : SensorState
  raised : Bool
  httpGets : Nat
  publishes : Nat
deriving DecidableEq, Repr

/-- The `else` branch of `if api_date_month in data and api_date_day in
data[api_date_month]`: state `未知`, attributes with the diagnostic and
`data.get(api_date_month)`; this branch raises nothing. -/
def noTodayResult (data : ApiData) (today : Today) : RefreshOutcome :=
  { sensor :=
      { state := some "未知"
      , attributes :=
          [ ("error", .str "API未返回今日数据")
          , ("api_response_month_data", .month (data.lookup today.ym)) ] }
  , raised := false, httpGets := 1, publishes := 1 }

/-- The `else` branch of `if holiday_type is not None and holiday_type in
STATUS_MAP`: state `未知`, attributes with the diagnostic and the raw
day entry; this branch raises nothing. -/
def invalidTypeResult (today_info : DayInfo) : RefreshOutcome :=
  { sensor :=
      { state := some "未知"
      , attributes :=
          [ ("error", .str "API返回的类型值无效或缺失")
          , ("api_raw_response_for_today", .info today_info) ] }
  , raised := false, httpGets := 1, publishes := 1 }

/-- `HolidayStatusSensor._async_update_data`, as a function of the
sensor's previous fields, the evaluated date and the outcome of the HTTP
GET.  Exactly one GET is issued per invocation (there is no cache of
previous months), and the `finally` block publishes exactly once on
every path.  When the GET raises (timeout, transport or JSON-decoding
failure), matching the first except clause raises `AttributeError`
(`async_timeout` has no `TimeoutError` attribute), which propagates with
the sensor fields unchanged — the handler bodies that would have set
`错误` are unreachable. -/
def async_update_data (prev : SensorState) (today : Today)
    (fetch : FetchOutcome) : RefreshOutcome :=
  match fetch with
  | .timeout =>
      { sensor := prev, raised := true, httpGets := 1, publishes := 1 }
  | .httpError _ =>
      { sensor := prev, raised := true, httpGets := 1, publishes := 1 }
  | .ok data =>
      match data.lookup today.ym with
      | none => noTodayResult data today
      | some monthData =>
        match monthData.lookup today.md with
        | none => noTodayResult data today
        | some today_info =>
          match today_info.type with
          | none => invalidTypeResult today_info
          | some holiday_type =>
            match STATUS_MAP.lookup holiday_type with
            | none => invalidTypeResult today_info
            | some label =>
                { sensor :=
                    { state := some label
                    , attributes :=
                        [ ("api_raw_type", .int holiday_type)
                        , ("api_typename", .optStr today_info.typename)
                        , ("date", .str today.dateStr)
                        , ("last_updated", .str today.isoNow) ] }
                , raised := false, httpGets := 1, publishes := 1 }

/-- `HolidayStatusSensor.__init__`: `self._state = None`,
`self._attributes = {}`. -/
def initialSensor : SensorState := { state := none, attributes := [] }

/-- The five labels the spec allows `_async_update_data` to publish: the
three `STATUS_MAP` values plus the two fallback labels of the (dead)
handlers and the in-`try` else branches. -/
def labels : List String := ["工作日", "休息日", "节假日", "未知", "错误"]

/-- Spec vocabulary: whether a Python weekday (`datetime.weekday()`,
0 = Monday … 6 = Sunday) is one of the last two days of the 7-day week,
i.e. Saturday (5) or Sunday (6). -/
def isWeekend (w : Nat) : Bool := w == 5 || w == 6

/-- Claim C1 (counterexample): on 2025-01-01, a Wednesday
(`weekday = 2`, not one of the last two days of the week), with the
day's entry carrying type code 1, the published state is the rest-day
(weekend) label `休息日` and not the holiday label `节假日` — the
claimed weekday tie-break does not exist in the code. -/
theorem code1_weekday_tiebreak_cex :
    (async_update_data initialSensor
        ⟨"202501", "0101", "2025-01-01", "2025-01-01T08:00:00", 2⟩
        (.ok [("202501", [("0101", ⟨some 1, some "New Year"⟩)])])).sensor.state
      = some "休息日"
    ∧ isWeekend 2 = false
    ∧ (async_update_data initialSensor
        ⟨"202501", "0101", "2025-01-01", "2025-01-01T08:00:00", 2⟩
        (.ok [("202501", [("0101", ⟨some 1, some "New Year"⟩)])])).sensor.state
      ≠ some "节假日" := by
  decide

/-- Claim C1 (amended): whenever the fetched month payload contains an
entry for the evaluated day with type code 1, the published state is the
rest-day label `休息日` (`STATUS_MAP[1]`), regardless of the evaluated
date's weekday; no weekday tie-break is performed. -/
theorem code1_always_rest_label (prev : SensorState) (today : Today)
    (data : ApiData) (monthData : MonthData) (today_info : DayInfo)
    (hm : data.lookup today.ym = some monthData)
    (hd : monthData.lookup today.md = some today_info)
    (ht : today_info.type = some 1) :
    (async_update_data prev today (.ok data)).sensor.state = some "休息日" := by
  simp only [async_update_data]
  simp only [hm, hd, ht]
  rfl

/-- Witness for `code1_always_rest_label` at a concrete input. -/
theorem code1_always_rest_label_witness :
    (async_update_data initialSensor ⟨"202501", "0104", "2025-01-04", "t", 5⟩
        (.ok [("202501", [("0104", ⟨some 1, none⟩)])])).sensor.state
      = some "休息日" :=
  code1_always_rest_label initialSensor
    ⟨"202501", "0104", "2025-01-04", "t", 5⟩
    [("202501", [("0104", ⟨some 1, none⟩)])]
    [("0104", ⟨some 1, none⟩)]
    ⟨some 1, none⟩
    (by decide) (by decide) (by decide)

/-- Claim C2 (counterexample): two consecutive refresh invocations whose
evaluated dates fall in the same month (`202501`): the second invocation
still issues one HTTP GET, not zero — there is no month cache. -/
theorem month_cache_reuse_cex :
    (⟨"202501", "0101", "2025-01-01", "t", 2⟩ : Today).ym
      = (⟨"202501", "0102", "2025-01-02", "t", 3⟩ : Today).ym
    ∧ (async_update_data initialSensor ⟨"202501", "0102", "2025-01-02", "t", 3⟩
        (.ok [("202501", [])])).httpGets ≠ 0 := by
  decide

/-- Claim C2 (amended): every refresh invocation issues exactly one HTTP
GET, whether or not its evaluated date falls in the same month as the
previous invocation; the code keeps no month cache, the fetched payload
is used only within the invocation. -/
theorem every_refresh_one_get (prev : SensorState) (today : Today)
    (fetch : FetchOutcome) :
    (async_update_data prev today fetch).httpGets = 1 := by
  cases fetch with
  | timeout => rfl
  | httpError e => rfl
  | ok data =>
    simp only [async_update_data]
    repeat' split
    all_goals rfl

/-- Claim C3 (counterexample): a valid payload containing the `202502`
month key but no entry for day `0203` yields the unknown label `未知`,
not the workday label `工作日`. -/
theorem missing_day_workday_cex :
    (async_update_data initialSensor ⟨"202502", "0203", "2025-02-03", "t", 0⟩
        (.ok [("202502", [])])).sensor.state ≠ some "工作日"
    ∧ (async_update_data initialSensor ⟨"202502", "0203", "2025-02-03", "t", 0⟩
        (.ok [("202502", [])])).sensor.state = some "未知" := by
  decide

/-- Claim C3 (amended): when the fetched payload contains the expected
year-month key but has no entry for the evaluated day key, the published
state is the unknown label `未知` with the diagnostic
`API未返回今日数据` in the attributes, and no exception is raised (this
branch completes inside the `try`, so the broken except clauses are
never reached). -/
theorem missing_day_unknown (prev : SensorState) (today : Today)
    (data : ApiData) (monthData : MonthData)
    (hm : data.lookup today.ym = some monthData)
    (hd : monthData.lookup today.md = none) :
    (async_update_data prev today (.ok data)).sensor.state = some "未知"
    ∧ (async_update_data prev today (.ok data)).sensor.attributes.lookup "error"
      = some (.str "API未返回今日数据")
    ∧ (async_update_data prev today (.ok data)).raised = false := by
  simp only [async_update_data]
  simp only [hm, hd]
  exact ⟨rfl, rfl, rfl⟩

/-- Witness for `missing_day_unknown` at a concrete input. -/
theorem missing_day_unknown_witness :
    (async_update_data initialSensor ⟨"202502", "0210", "2025-02-10", "t", 0⟩
        (.ok [("202502", [("0211", ⟨some 0, none⟩)])])).sensor.state
      = some "未知"
    ∧ (async_update_data initialSensor ⟨"202502", "0210", "2025-02-10", "t", 0⟩
        (.ok [("202502", [("0211", ⟨some 0, none⟩)])])).sensor.attributes.lookup "error"
      = some (.str "API未返回今日数据")
    ∧ (async_update_data initialSensor ⟨"202502", "0210", "2025-02-10", "t", 0⟩
        (.ok [("202502", [("0211", ⟨some 0, none⟩)])])).raised = false :=
  missing_day_unknown initialSensor
    ⟨"202502", "0210", "2025-02-10", "t", 0⟩
    [("202502", [("0211", ⟨some 0, none⟩)])]
    [("0211", ⟨some 0, none⟩)]
    (by decide) (by decide)

/-- Claim C4 (counterexample): an entry for the evaluated day whose type
code is missing yields the unknown label `未知`, not the workday label
`工作日`. -/
theorem unrecognized_type_workday_cex :
    (async_update_data initialSensor ⟨"202503", "0301", "2025-03-01", "t", 5⟩
        (.ok [("202503", [("0301", ⟨none, some "x"⟩)])])).sensor.state
      ≠ some "工作日"
    ∧ (async_update_data initialSensor ⟨"202503", "0301", "2025-03-01", "t", 5⟩
        (.ok [("202503", [("0301", ⟨none, some "x"⟩)])])).sensor.state
      = some "未知" := by
  decide

/-- Claim C4 (amended): when the evaluated day's entry is present but its
type code is missing or is not one of the recognized codes 0, 1, 2, the
published state is the unknown label `未知` and the attributes carry the
diagnostic `API返回的类型值无效或缺失` (code 2 is recognized and yields
the holiday label, see `code2_holiday_label`). -/
theorem unrecognized_type_unknown (prev : SensorState) (today : Today)
    (data : ApiData) (monthData : MonthData) (today_info : DayInfo)
    (hm : data.lookup today.ym = some monthData)
    (hd : monthData.lookup today.md = some today_info)
    (ht : ∀ t, today_info.type = some t → STATUS_MAP.lookup t = none) :
    (async_update_data prev today (.ok data)).sensor.state = some "未知"
    ∧ (async_update_data prev today (.ok data)).sensor.attributes.lookup "error"
      = some (.str "API返回的类型值无效或缺失") := by
  simp only [async_update_data]
  simp only [hm, hd]
  cases htyp : today_info.type with
  | none => exact ⟨rfl, rfl⟩
  | some t =>
    simp only [ht t htyp]
    exact ⟨rfl, rfl⟩

/-- Witness for `unrecognized_type_unknown` at a concrete input whose
day entry carries the unrecognized type code 3. -/
theorem unrecognized_type_unknown_witness :
    (async_update_data initialSensor ⟨"202503", "0302", "2025-03-02", "t", 6⟩
        (.ok [("202503", [("0302", ⟨some 3, none⟩)])])).sensor.state
      = some "未知"
    ∧ (async_update_data initialSensor ⟨"202503", "0302", "2025-03-02", "t", 6⟩
        (.ok [("202503", [("0302", ⟨some 3, none⟩)])])).sensor.attributes.lookup "error"
      = some (.str "API返回的类型值无效或缺失") :=
  unrecognized_type_unknown initialSensor
    ⟨"202503", "0302", "2025-03-02", "t", 6⟩
    [("202503", [("0302", ⟨some 3, none⟩)])]
    [("0302", ⟨some 3, none⟩)]
    ⟨some 3, none⟩
    (by decide) (by decide) (by decide)

/-- Claim C5 (code bug): evaluating the code at failing inputs — a GET
that times out and a GET that fails in transport.  In both cases the
first except clause's nonexistent `async_timeout.TimeoutError` turns the
exception into an `AttributeError` that propagates out of
`_async_update_data`, and the sensor fields stay unchanged instead of
being set to an unknown/error label with a diagnostic, contradicting the
claim that no exception propagates. -/
theorem broken_except_clause_propagates :
    (async_update_data initialSensor ⟨"202504", "0401", "2025-04-01", "t", 1⟩
        FetchOutcome.timeout).raised = true
    ∧ (async_update_data initialSensor ⟨"202504", "0401", "2025-04-01", "t", 1⟩
        FetchOutcome.timeout).sensor = initialSensor
    ∧ (async_update_data initialSensor ⟨"202504", "0401", "2025-04-01", "t", 1⟩
        (FetchOutcome.httpError "Cannot connect to host")).raised = true
    ∧ (async_update_data initialSensor ⟨"202504", "0401", "2025-04-01", "t", 1⟩
        (FetchOutcome.httpError "Cannot connect to host")).sensor
      = initialSensor := by
  decide

/-- Claim C6: whenever the fetched month payload contains an entry for
the evaluated day with type code 0, the published state is the workday
label `工作日` (`STATUS_MAP[0]`), for every weekday of the evaluated
date. -/
theorem code0_workday_label (prev : SensorState) (today : Today)
    (data : ApiData) (monthData : MonthData) (today_info : DayInfo)
    (hm : data.lookup today.ym = some monthData)
    (hd : monthData.lookup today.md = some today_info)
    (ht : today_info.type = some 0) :
    (async_update_data prev today (.ok data)).sensor.state = some "工作日" := by
  simp only [async_update_data]
  simp only [hm, hd, ht]
  rfl

/-- Witness for `code0_workday_label` at a concrete input falling on a
Sunday (`weekday = 6`). -/
theorem code0_workday_label_witness :
    (async_update_data initialSensor ⟨"202505", "0504", "2025-05-04", "t", 6⟩
        (.ok [("202505", [("0504", ⟨some 0, some "工作日"⟩)])])).sensor.state
      = some "工作日" :=
  code0_workday_label initialSensor
    ⟨"202505", "0504", "2025-05-04", "t", 6⟩
    [("202505", [("0504", ⟨some 0, some "工作日"⟩)])]
    [("0504", ⟨some 0, some "工作日"⟩)]
    ⟨some 0, some "工作日"⟩
    (by decide) (by decide) (by decide)

/-- Claim C7 (code bug): evaluating the code at a failing input — a
first refresh (sensor fields still at their `__init__` values) whose GET
times out.  The `finally` block publishes exactly once, but what it
publishes is the unchanged stale `_state = None`, a value outside the
five-label set, contradicting the claim that every completed refresh
publishes one of the five labels. -/
theorem failed_refresh_publishes_stale_none :
    (async_update_data initialSensor ⟨"202506", "0601", "2025-06-01", "t", 6⟩
        FetchOutcome.timeout).publishes = 1
    ∧ (async_update_data initialSensor ⟨"202506", "0601", "2025-06-01", "t", 6⟩
        FetchOutcome.timeout).sensor.state = none
    ∧ (none : Option String) ∉ labels.map some := by
  decide

/-- Claim C8: every refresh invocation performs exactly one
publish-to-sink call (`async_write_ha_state`, run in the `finally` block
before the operation returns or the propagating exception leaves it), on
the success path and on every failure path. -/
theorem one_publish_per_refresh (prev : SensorState) (today : Today)
    (fetch : FetchOutcome) :
    (async_update_data prev today fetch).publishes = 1 := by
  cases fetch with
  | timeout => rfl
  | httpError e => rfl
  | ok data =>
    simp only [async_update_data]
    repeat' split
    all_goals rfl

/-- Claim C9: type code 2 is recognized by `STATUS_MAP`: an entry for
the evaluated day with type code 2 yields the holiday label `节假日`,
not a fallback or unknown label. -/
theorem code2_holiday_label (prev : SensorState) (today : Today)
    (data : ApiData) (monthData : MonthData) (today_info : DayInfo)
    (hm : data.lookup today.ym = some monthData)
    (hd : monthData.lookup today.md = some today_info)
    (ht : today_info.type = some 2) :
    (async_update_data prev today (.ok data)).sensor.state = some "节假日" := by
  simp only [async_update_data]
  simp only [hm, hd, ht]
  rfl

/-- Witness for `code2_holiday_label` at a concrete input. -/
theorem code2_holiday_label_witness :
    (async_update_data initialSensor ⟨"202510", "1001", "2025-10-01", "t", 2⟩
        (.ok [("202510", [("1001", ⟨some 2, some "国庆节"⟩)])])).sensor.state
      = some "节假日" :=
  code2_holiday_label initialSensor
    ⟨"202510", "1001", "2025-10-01", "t", 2⟩
    [("202510", [("1001", ⟨some 2, some "国庆节"⟩)])]
    [("1001", ⟨some 2, some "国庆节"⟩)]
    ⟨some 2, some "国庆节"⟩
    (by decide) (by decide) (by decide)

/-- Claim C10: after `__init__` and before the first refresh completes,
the sensor's readable state is `None` — not one of the five published
labels — and its attribute mapping is empty.  In the embedding the only
operation that writes the state fields is `async_update_data`, so only a
completed refresh moves the state into the label set. -/
theorem initial_state_outside_labels :
    initialSensor.state = none
    ∧ initialSensor.attributes = []
    ∧ initialSensor.state ∉ labels.map some := by
  decide

end HolidayStatus
